import Mathlib

/-
Shallow embedding of `src/implementors/core/ops/trait.InPlace.js`, a
rustdoc-generated registration script of the form

  (function() {var implementors = {};
  implementors["lazy_static"] = [...]; ... implementors["iron"] = [...];
      if (window.register_implementors) {
          window.register_implementors(implementors);
      } else {
          window.pending_implementors = implementors;
      }
  })()

JavaScript values are modelled by `JSVal`, the browser's global object
(`window`) by a total map `Env := String → JSVal` (an absent binding is
`undef`), and executing the script by `runScript`, which returns either the
final environment together with the list of observable effects the script
performed (a call of the registration callback, or an assignment to a
global), or a runtime error (the `TypeError` JavaScript raises when a truthy
non-callable value is called).
-/

namespace MdBook

/-- JavaScript values, as far as this script can observe or produce them. -/
inductive JSVal where
  | undef
  | boolean (b : Bool)
  | number (n : Int)
  | string (s : String)
  | arr (elems : List JSVal)
  | obj (entries : List (String × JSVal))
  | fn (id : Nat)

/-- JavaScript `ToBoolean` on the modelled values (NaN and fractional
numbers are outside the model; the script only ever tests one slot). -/
def truthy : JSVal → Bool
  | .undef => false
  | .boolean b => b
  | .number n => n != 0
  | .string s => s != ""
  | .arr _ => true
  | .obj _ => true
  | .fn _ => true

/-- Whether a value can be called as a function. -/
def isCallable : JSVal → Bool
  | .fn _ => true
  | _ => false

/-- JavaScript property assignment `o[k] = v` on a plain object's entry
list: overwrite in place when the key exists, append otherwise (insertion
order is preserved, as in JS objects with string keys). -/
def objSet : List (String × JSVal) → String → JSVal → List (String × JSVal)
  | [], k, v => [(k, v)]
  | (k', v') :: rest, k, v =>
    if k' = k then (k, v) :: rest else (k', v') :: objSet rest k v

/-- The HTML fragment for the `InPlace<T> for IntermediateBox<T>` impl;
this exact string appears once in each of the ten arrays of the source. -/
def implIntermediateBox : String :=
  "impl&lt;T&gt; <a class='trait' href='https://doc.rust-lang.org/nightly/core/ops/trait.InPlace.html' title='core::ops::InPlace'>InPlace</a>&lt;T&gt; for <a class='struct' href='https://doc.rust-lang.org/nightly/alloc/boxed/struct.IntermediateBox.html' title='alloc::boxed::IntermediateBox'>IntermediateBox</a>&lt;T&gt;"

/-- The HTML fragment for the `InPlace<T> for FrontPlace<'a, T>` impl. -/
def implFrontPlace : String :=
  "impl&lt;'a, T&gt; <a class='trait' href='https://doc.rust-lang.org/nightly/core/ops/trait.InPlace.html' title='core::ops::InPlace'>InPlace</a>&lt;T&gt; for <a class='struct' href='https://doc.rust-lang.org/nightly/collections/linked_list/struct.FrontPlace.html' title='collections::linked_list::FrontPlace'>FrontPlace</a>&lt;'a, T&gt;"

/-- The HTML fragment for the `InPlace<T> for BackPlace<'a, T>` impl. -/
def implBackPlace : String :=
  "impl&lt;'a, T&gt; <a class='trait' href='https://doc.rust-lang.org/nightly/core/ops/trait.InPlace.html' title='core::ops::InPlace'>InPlace</a>&lt;T&gt; for <a class='struct' href='https://doc.rust-lang.org/nightly/collections/linked_list/struct.BackPlace.html' title='collections::linked_list::BackPlace'>BackPlace</a>&lt;'a, T&gt;"

/-- The array literal `["impl… IntermediateBox…", "impl… FrontPlace…",
"impl… BackPlace…"]` assigned to `lazy_static`, `regex_syntax`, `libc`,
`serde`, `nix`, `mio` and `handlebars` in the source (the text of the
literal is identical at each of those seven occurrences). -/
def crateImplsA : List JSVal :=
  [.string implIntermediateBox, .string implFrontPlace, .string implBackPlace]

/-- The array literal `["impl… FrontPlace…", "impl… BackPlace…",
"impl… IntermediateBox…"]` assigned to `ws`, `hyper` and `iron` in the
source (identical text at each of those three occurrences). -/
def crateImplsB : List JSVal :=
  [.string implFrontPlace, .string implBackPlace, .string implIntermediateBox]

/-- The entry list of the local object `implementors`: the result of the
source's ten property assignments, in source order, starting from the empty
object literal `{}`. -/
def implementorsEntries : List (String × JSVal) :=
  objSet (objSet (objSet (objSet (objSet (objSet (objSet (objSet (objSet (objSet []
    "lazy_static" (.arr crateImplsA))
    "regex_syntax" (.arr crateImplsA))
    "libc" (.arr crateImplsA))
    "serde" (.arr crateImplsA))
    "nix" (.arr crateImplsA))
    "mio" (.arr crateImplsA))
    "ws" (.arr crateImplsB))
    "hyper" (.arr crateImplsB))
    "handlebars" (.arr crateImplsA))
    "iron" (.arr crateImplsB)

/-- The value of the IIFE-local variable `implementors` at the `if`. -/
def implementors : JSVal := .obj implementorsEntries

/-- The browser's global object: a total map from global names to values
(an absent binding reads as `undef`, as `window.x` does in JS). -/
def Env : Type := String → JSVal

/-- Assignment to a single global: `window[k] = v`. -/
def updateEnv (w : Env) (k : String) (v : JSVal) : Env :=
  fun k' => if k' = k then v else w k'

/-- The observable effects the script can perform on its host page:
invoking a callback with one argument, or assigning a global. -/
inductive Effect where
  | call (callee : JSVal) (arg : JSVal)
  | assign (name : String) (v : JSVal)

/-- Executing the IIFE on an initial global object `w`: test
`window.register_implementors` for truthiness; if truthy, call it with
`implementors` as the sole argument (a `TypeError` if it is not callable);
otherwise assign `implementors` to `window.pending_implementors`.  The
result is the final global object together with the effect trace, or the
raised error. -/
def runScript (w : Env) : Except String (Env × List Effect) :=
  if truthy (w "register_implementors") then
    if isCallable (w "register_implementors") then
      Except.ok (w, [Effect.call (w "register_implementors") implementors])
    else
      Except.error "TypeError: window.register_implementors is not a function"
  else
    Except.ok (updateEnv w "pending_implementors" implementors,
               [Effect.assign "pending_implementors" implementors])

/-- A value that is an array whose elements are all strings. -/
def isStrArr : JSVal → Bool
  | .arr l => l.all fun e => match e with | .string _ => true | _ => false
  | _ => false

/-- A window with no bindings at all (every global reads as `undef`). -/
def emptyWindow : Env := fun _ => JSVal.undef

/-- A window exposing a registration callback and nothing else. -/
def windowWithCallback : Env :=
  fun k => if k = "register_implementors" then JSVal.fn 0 else JSVal.undef

/-- A window whose `register_implementors` slot holds a truthy value that
is not callable (a non-empty string). -/
def windowWithString : Env :=
  fun k => if k = "register_implementors" then JSVal.string "not-a-function"
           else JSVal.undef

/-- A callable value is truthy (functions are always truthy in JS). -/
lemma truthy_of_isCallable (v : JSVal) (h : isCallable v = true) :
    truthy v = true := by
  cases v <;> simp [isCallable, truthy] at h ⊢

/-- When the script completes without error, every global other than
`pending_implementors` is unchanged. -/
lemma runScript_ok_frame (w w' : Env) (effs : List Effect)
    (h : runScript w = Except.ok (w', effs))
    (k : String) (hk : k ≠ "pending_implementors") : w' k = w k := by
  cases ht : truthy (w "register_implementors") with
  | false =>
    simp [runScript, ht] at h
    rw [← h.1]
    simp [updateEnv, hk]
  | true =>
    cases hc : isCallable (w "register_implementors") with
    | false => simp [runScript, ht, hc] at h
    | true =>
      simp [runScript, ht, hc] at h
      rw [← h.1]

/-- C1 fails as stated: the claim quantifies over every initial
environment, but in an environment where `window.register_implementors`
holds a truthy non-callable value (here the string "not-a-function"),
the call throws a `TypeError`, so the callback is not invoked and
`pending_implementors` is not written — execution does not complete at
all. -/
theorem c1_counterexample :
    truthy (windowWithString "register_implementors") = true ∧
    ∀ w' effs, runScript windowWithString ≠ Except.ok (w', effs) := by
  refine ⟨rfl, fun w' effs h => ?_⟩
  have hrun : runScript windowWithString =
      Except.error "TypeError: window.register_implementors is not a function" :=
    rfl
  rw [hrun] at h
  exact Except.noConfusion h

/-- C1 (amended): if `window.register_implementors` is callable, the
script invokes it exactly once with the implementors mapping as its sole
argument and leaves the global object unchanged (in particular it does not
write `pending_implementors`); if the slot is falsy, the script instead
assigns the mapping to `window.pending_implementors` and calls nothing. -/
theorem c1_registration_glue (w : Env) :
    (isCallable (w "register_implementors") = true →
      runScript w =
        Except.ok (w, [Effect.call (w "register_implementors") implementors])) ∧
    (truthy (w "register_implementors") = false →
      runScript w =
        Except.ok (updateEnv w "pending_implementors" implementors,
                   [Effect.assign "pending_implementors" implementors])) := by
  constructor
  · intro hc
    have ht := truthy_of_isCallable _ hc
    simp [runScript, ht, hc]
  · intro ht
    simp [runScript, ht]

/-- C1 (amended) at concrete windows: a window exposing a callback takes
the call branch; an empty window takes the pending-assignment branch. -/
theorem c1_registration_glue_witness :
    runScript windowWithCallback =
      Except.ok (windowWithCallback,
        [Effect.call (windowWithCallback "register_implementors") implementors]) ∧
    runScript emptyWindow =
      Except.ok (updateEnv emptyWindow "pending_implementors" implementors,
        [Effect.assign "pending_implementors" implementors]) :=
  ⟨(c1_registration_glue windowWithCallback).1 rfl,
   (c1_registration_glue emptyWindow).2 rfl⟩

/-- C2 fails as stated ("never neither"): in an environment where the
registration slot holds a truthy non-callable value, the attempted call
throws, so neither a callback invocation nor a write of the pending global
occurs. -/
theorem c2_counterexample :
    ¬ ∃ w' effs, runScript windowWithString = Except.ok (w', effs) ∧
      ((∃ f a, Effect.call f a ∈ effs) ∨ (∃ n v, Effect.assign n v ∈ effs)) := by
  rintro ⟨w', effs, h, -⟩
  have hrun : runScript windowWithString =
      Except.error "TypeError: window.register_implementors is not a function" :=
    rfl
  rw [hrun] at h
  exact Except.noConfusion h

/-- C2 (amended): whenever execution completes without error, the effect
trace is a single effect which is either the callback invocation or the
assignment of the pending global — exactly one of the two branches takes
effect, never both.  (When the registration slot is truthy but not
callable, execution throws and neither effect occurs.) -/
theorem c2_exactly_one_branch (w w' : Env) (effs : List Effect)
    (h : runScript w = Except.ok (w', effs)) :
    effs = [Effect.call (w "register_implementors") implementors] ∨
    effs = [Effect.assign "pending_implementors" implementors] := by
  cases ht : truthy (w "register_implementors") with
  | false =>
    right
    simp [runScript, ht] at h
    exact h.2.symm
  | true =>
    cases hc : isCallable (w "register_implementors") with
    | false => simp [runScript, ht, hc] at h
    | true =>
      left
      simp [runScript, ht, hc] at h
      exact h.2.symm

/-- C2 (amended) at a concrete window: the empty window completes and its
single effect is the pending-global assignment. -/
theorem c2_exactly_one_branch_witness :
    [Effect.assign "pending_implementors" implementors] =
      [Effect.call (emptyWindow "register_implementors") implementors] ∨
    [Effect.assign "pending_implementors" implementors] =
      [Effect.assign "pending_implementors" implementors] :=
  c2_exactly_one_branch emptyWindow
    (updateEnv emptyWindow "pending_implementors" implementors)
    [Effect.assign "pending_implementors" implementors] rfl

/-- C3: under the external contract — the registration global, when
truthy, is a callable function — executing the script never raises an
error: it completes in either branch. -/
theorem c3_no_error (w : Env)
    (h : truthy (w "register_implementors") = true →
         isCallable (w "register_implementors") = true) :
    ∃ w' effs, runScript w = Except.ok (w', effs) := by
  cases ht : truthy (w "register_implementors") with
  | false =>
    exact ⟨updateEnv w "pending_implementors" implementors,
           [Effect.assign "pending_implementors" implementors],
           by simp [runScript, ht]⟩
  | true =>
    exact ⟨w, [Effect.call (w "register_implementors") implementors],
           by simp [runScript, ht, h ht]⟩

/-- C3 at a concrete window satisfying the contract. -/
theorem c3_no_error_witness :
    ∃ w' effs, runScript windowWithCallback = Except.ok (w', effs) :=
  c3_no_error windowWithCallback (fun _ => rfl)

/-- C4: the script writes no global other than `pending_implementors`:
whenever execution completes, every other global binding has the same
value after execution as before. -/
theorem c4_frame_effect (w w' : Env) (effs : List Effect)
    (h : runScript w = Except.ok (w', effs))
    (k : String) (hk : k ≠ "pending_implementors") : w' k = w k :=
  runScript_ok_frame w w' effs h k hk

/-- C4 at a concrete window and a concrete other global name. -/
theorem c4_frame_effect_witness :
    (updateEnv emptyWindow "pending_implementors" implementors)
        "register_implementors" =
      emptyWindow "register_implementors" :=
  c4_frame_effect emptyWindow
    (updateEnv emptyWindow "pending_implementors" implementors)
    [Effect.assign "pending_implementors" implementors] rfl
    "register_implementors" (by decide)

/-- C5: the script has no data processing of its own — the value it
delivers is the fixed literal table: the argument of any callback
invocation and the value of any global assignment both equal
`implementors`, which is the literal ten-entry object, independent of the
environment. -/
theorem c5_literal_payload (w w' : Env) (effs : List Effect)
    (h : runScript w = Except.ok (w', effs)) :
    (∀ f a, Effect.call f a ∈ effs → a = implementors) ∧
    (∀ n v, Effect.assign n v ∈ effs →
        n = "pending_implementors" ∧ v = implementors) ∧
    implementors = JSVal.obj
      [("lazy_static", JSVal.arr crateImplsA), ("regex_syntax", JSVal.arr crateImplsA),
       ("libc", JSVal.arr crateImplsA), ("serde", JSVal.arr crateImplsA),
       ("nix", JSVal.arr crateImplsA), ("mio", JSVal.arr crateImplsA),
       ("ws", JSVal.arr crateImplsB), ("hyper", JSVal.arr crateImplsB),
       ("handlebars", JSVal.arr crateImplsA), ("iron", JSVal.arr crateImplsB)] := by
  cases ht : truthy (w "register_implementors") with
  | false =>
    simp [runScript, ht] at h
    refine ⟨?_, ?_, rfl⟩
    · intro f a hmem
      rw [← h.2] at hmem
      simp at hmem
    · intro n v hmem
      rw [← h.2] at hmem
      simp at hmem
      exact ⟨hmem.1, hmem.2⟩
  | true =>
    cases hc : isCallable (w "register_implementors") with
    | false => simp [runScript, ht, hc] at h
    | true =>
      simp [runScript, ht, hc] at h
      refine ⟨?_, ?_, rfl⟩
      · intro f a hmem
        rw [← h.2] at hmem
        simp at hmem
        exact hmem.2
      · intro n v hmem
        rw [← h.2] at hmem
        simp at hmem

/-- C5 at a concrete window (the pending-assignment branch). -/
theorem c5_literal_payload_witness :
    (∀ f a,
        Effect.call f a ∈ [Effect.assign "pending_implementors" implementors] →
        a = implementors) ∧
    (∀ n v,
        Effect.assign n v ∈ [Effect.assign "pending_implementors" implementors] →
        n = "pending_implementors" ∧ v = implementors) ∧
    implementors = JSVal.obj
      [("lazy_static", JSVal.arr crateImplsA), ("regex_syntax", JSVal.arr crateImplsA),
       ("libc", JSVal.arr crateImplsA), ("serde", JSVal.arr crateImplsA),
       ("nix", JSVal.arr crateImplsA), ("mio", JSVal.arr crateImplsA),
       ("ws", JSVal.arr crateImplsB), ("hyper", JSVal.arr crateImplsB),
       ("handlebars", JSVal.arr crateImplsA), ("iron", JSVal.arr crateImplsB)] :=
  c5_literal_payload emptyWindow
    (updateEnv emptyWindow "pending_implementors" implementors)
    [Effect.assign "pending_implementors" implementors] rfl

/-- C6: executing the script is a single terminating pass: for every
initial environment it yields a result — either a completed final
environment with its effect trace or a raised error. -/
theorem c6_terminates (w : Env) :
    (∃ w' effs, runScript w = Except.ok (w', effs)) ∨
    (∃ msg, runScript w = Except.error msg) := by
  cases ht : truthy (w "register_implementors") with
  | false =>
    exact Or.inl ⟨updateEnv w "pending_implementors" implementors,
                  [Effect.assign "pending_implementors" implementors],
                  by simp [runScript, ht]⟩
  | true =>
    cases hc : isCallable (w "register_implementors") with
    | false =>
      exact Or.inr ⟨"TypeError: window.register_implementors is not a function",
                    by simp [runScript, ht, hc]⟩
    | true =>
      exact Or.inl ⟨w, [Effect.call (w "register_implementors") implementors],
                    by simp [runScript, ht, hc]⟩

/-- C7: the delivered value is an object whose keys are strings (by the
shape of `JSVal.obj`, mirroring JS string-keyed objects) and each of whose
values is a finite array all of whose elements are strings. -/
theorem c7_mapping_shape :
    implementors = JSVal.obj implementorsEntries ∧
    implementorsEntries.all (fun p => isStrArr p.2) = true :=
  ⟨rfl, rfl⟩

/-- C8: execution is deterministic: two runs from pointwise-equal initial
environments produce identical results (same branch, same effects, same
final environment). -/
theorem c8_deterministic (w1 w2 : Env) (h : ∀ k, w1 k = w2 k) :
    runScript w1 = runScript w2 := by
  rw [funext h]

/-- C8 at a concrete pair of equal windows. -/
theorem c8_deterministic_witness :
    runScript emptyWindow = runScript emptyWindow :=
  c8_deterministic emptyWindow emptyWindow (fun _ => rfl)

/-- C9: the table has exactly the ten keys `lazy_static`, `regex_syntax`,
`libc`, `serde`, `nix`, `mio`, `ws`, `hyper`, `handlebars`, `iron` (in
source order), and each value is an array of exactly three HTML fragment
strings — the IntermediateBox, FrontPlace and BackPlace impls, in some
order. -/
theorem c9_table_contents :
    implementorsEntries.map Prod.fst =
      ["lazy_static", "regex_syntax", "libc", "serde", "nix", "mio", "ws",
       "hyper", "handlebars", "iron"] ∧
    ∀ p ∈ implementorsEntries, ∃ l : List String,
      p.2 = JSVal.arr (l.map JSVal.string) ∧
      l.Perm [implIntermediateBox, implFrontPlace, implBackPlace] := by
  refine ⟨rfl, ?_⟩
  have hE : implementorsEntries =
      [("lazy_static", JSVal.arr crateImplsA), ("regex_syntax", JSVal.arr crateImplsA),
       ("libc", JSVal.arr crateImplsA), ("serde", JSVal.arr crateImplsA),
       ("nix", JSVal.arr crateImplsA), ("mio", JSVal.arr crateImplsA),
       ("ws", JSVal.arr crateImplsB), ("hyper", JSVal.arr crateImplsB),
       ("handlebars", JSVal.arr crateImplsA), ("iron", JSVal.arr crateImplsB)] := rfl
  have permB : [implFrontPlace, implBackPlace, implIntermediateBox].Perm
      [implIntermediateBox, implFrontPlace, implBackPlace] :=
    ((List.Perm.swap implIntermediateBox implBackPlace []).cons implFrontPlace).trans
      (List.Perm.swap implIntermediateBox implFrontPlace [implBackPlace])
  intro p hp
  rw [hE] at hp
  simp only [List.mem_cons, List.not_mem_nil, or_false] at hp
  rcases hp with rfl | rfl | rfl | rfl | rfl | rfl | rfl | rfl | rfl | rfl
  all_goals
    first
      | exact ⟨[implIntermediateBox, implFrontPlace, implBackPlace], rfl,
               List.Perm.refl _⟩
      | exact ⟨[implFrontPlace, implBackPlace, implIntermediateBox], rfl, permB⟩

/-- C10: the binding named `implementors` is local to the IIFE and never
leaks: whenever execution completes, the global named `implementors` has
the same value after execution as before (in particular it stays absent
when it was absent). -/
theorem c10_no_implementors_global (w w' : Env) (effs : List Effect)
    (h : runScript w = Except.ok (w', effs)) :
    w' "implementors" = w "implementors" :=
  runScript_ok_frame w w' effs h "implementors" (by decide)

/-- C10 at a concrete window with no prior `implementors` global. -/
theorem c10_no_implementors_global_witness :
    (updateEnv emptyWindow "pending_implementors" implementors)
        "implementors" =
      emptyWindow "implementors" :=
  c10_no_implementors_global emptyWindow
    (updateEnv emptyWindow "pending_implementors" implementors)
    [Effect.assign "pending_implementors" implementors] rfl

end MdBook
